import Mathlib

/-!
Verification of the MT-Bench evaluation-orchestration layer
(`src/instructlab/eval/mt_bench.py`): the worker-budget derivation in
`AbstractMTBenchEvaluator.__init__`, and the `gen_answers` / `judge_answers`
methods of `MTBenchEvaluator` and `MTBenchBranchEvaluator`.

The `max_workers` parameter is dynamically typed in the source (int, bool,
str, None all reach the constructor), so we embed the relevant fragment of
Python's value universe as an inductive `PyVal`.  Python booleans are a
subtype of int: `isinstance(True, int)` holds and `True > 0` holds, which
the embedding reflects in `pyIsInstanceInt` and `pyToInt`.

The answer-generation, judgment and branch-materialization collaborators
live in other modules; the methods are embedded as pure functions producing
the ordered list of collaborator calls they make (`CallEvent`) and, for
judgment, the Python tuple they return.  Every method also returns the
evaluator's post-state explicitly, so that frame properties are statable.
-/

/-- The fragment of Python values that can reach the `max_workers` parameter:
integers, booleans, strings and `None`. -/
inductive PyVal where
  | int (n : Int)
  | bool (b : Bool)
  | str (s : String)
  | none
deriving DecidableEq

/-- Python `isinstance(v, int)`: true for int and for bool (bool is a
subclass of int in Python). -/
def pyIsInstanceInt : PyVal → Bool
  | PyVal.int _ => true
  | PyVal.bool _ => true
  | PyVal.str _ => false
  | PyVal.none => false

/-- Numeric value of an integer-typed Python value (`True` is 1, `False` is
0).  Only consulted where `pyIsInstanceInt` holds, mirroring the
short-circuit `isinstance(max_workers, int) and max_workers > 0`. -/
def pyToInt : PyVal → Int
  | PyVal.int n => n
  | PyVal.bool b => if b then 1 else 0
  | PyVal.str _ => 0
  | PyVal.none => 0

/-- The check on the explicit branch of the constructor:
`isinstance(max_workers, int) and max_workers > 0`. -/
def isValidExplicitMaxWorkers (v : PyVal) : Bool :=
  pyIsInstanceInt v && decide (0 < pyToInt v)

/-- The worker-budget derivation of `AbstractMTBenchEvaluator.__init__`
(mt_bench.py lines 56-79).  `usable_cpu_count` stands for
`len(os.sched_getaffinity(0))` (or the `multiprocessing.cpu_count()`
fallback), a non-negative host quantity.  `Except.error v` models
`raise InvalidMaxWorkersError(max_workers)`: the error carries the rejected
value.  On success the stored `self.max_workers` Python value is returned:
the auto path stores a freshly computed int, the explicit path stores the
original value unchanged. -/
def computeMaxWorkers (max_workers : PyVal) (serving_gpus : Option Int)
    (usable_cpu_count : Nat) : Except PyVal PyVal :=
  if max_workers = PyVal.str "auto" then
    match serving_gpus with
    | Option.some g =>
        Except.ok (PyVal.int (min (max g 1 * 10) (usable_cpu_count : Int)))
    | Option.none =>
        Except.ok (PyVal.int ((usable_cpu_count : Int) / 2))
  else
    if isValidExplicitMaxWorkers max_workers then
      Except.ok max_workers
    else
      Except.error max_workers

/-- Config stored by `AbstractMTBenchEvaluator.__init__`: the five fields
assigned verbatim plus the derived `max_workers`. -/
structure AbstractMTBenchEvaluator where
  model_name : String
  judge_model_name : String
  output_dir : String
  serving_gpus : Option Int
  merge_system_user_message : Bool
  max_workers : PyVal
deriving DecidableEq

/-- Constructor `AbstractMTBenchEvaluator.__init__` (mt_bench.py lines 41-79):
stores the config and runs the worker-budget derivation, failing with
`InvalidMaxWorkersError` (modelled as `Except.error` carrying the rejected
value) when the derivation rejects `max_workers`. -/
def AbstractMTBenchEvaluator.init (model_name judge_model_name output_dir : String)
    (max_workers : PyVal) (serving_gpus : Option Int)
    (merge_system_user_message : Bool) (usable_cpu_count : Nat) :
    Except PyVal AbstractMTBenchEvaluator :=
  match computeMaxWorkers max_workers serving_gpus usable_cpu_count with
  | Except.ok w =>
      Except.ok ⟨model_name, judge_model_name, output_dir, serving_gpus,
        merge_system_user_message, w⟩
  | Except.error v => Except.error v

/-- Concrete `MTBenchEvaluator` adds no fields to the abstract base. -/
structure MTBenchEvaluator extends AbstractMTBenchEvaluator
deriving DecidableEq

/-- Class attribute `name = "mt_bench"`. -/
def MTBenchEvaluator.benchName : String := "mt_bench"

/-- Construction of `MTBenchEvaluator`: delegates to the base constructor. -/
def MTBenchEvaluator.init (model_name judge_model_name output_dir : String)
    (max_workers : PyVal) (serving_gpus : Option Int)
    (merge_system_user_message : Bool) (usable_cpu_count : Nat) :
    Except PyVal MTBenchEvaluator :=
  match AbstractMTBenchEvaluator.init model_name judge_model_name output_dir
      max_workers serving_gpus merge_system_user_message usable_cpu_count with
  | Except.ok b => Except.ok ⟨b⟩
  | Except.error v => Except.error v

/-- Structure `MTBenchBranchEvaluator` extends the base config with the branch
context (mt_bench.py lines 152-172). -/
structure MTBenchBranchEvaluator extends AbstractMTBenchEvaluator where
  taxonomy_git_repo_path : String
  branch : String
deriving DecidableEq

/-- Class attribute `name = "mt_bench_branch"`. -/
def MTBenchBranchEvaluator.benchName : String := "mt_bench_branch"

/-- Constructor `MTBenchBranchEvaluator.__init__`: delegates to the base constructor
(`super().__init__`) then stores the branch context. -/
def MTBenchBranchEvaluator.init
    (model_name judge_model_name taxonomy_git_repo_path branch output_dir : String)
    (max_workers : PyVal) (serving_gpus : Option Int)
    (merge_system_user_message : Bool) (usable_cpu_count : Nat) :
    Except PyVal MTBenchBranchEvaluator :=
  match AbstractMTBenchEvaluator.init model_name judge_model_name output_dir
      max_workers serving_gpus merge_system_user_message usable_cpu_count with
  | Except.ok b => Except.ok ⟨b, taxonomy_git_repo_path, branch⟩
  | Except.error v => Except.error v

/-- Result of the judgment collaborator `mt_bench_judgment.generate_judgment`.
Modelled from the spec: that module is not under src; per the external
interface table its output is the 4-tuple
(overall_score, qa_pairs, turn_scores, error_rate).  Score scalars and the
qa-pair payload are opaque to the orchestration layer; they are embedded
with simple stand-in carriers that this layer never computes on. -/
structure JudgmentResult where
  overall_score : Int
  qa_pairs : List (String × Int)
  turn_scores : List Int
  error_rate : Int
deriving DecidableEq

/-- One component of a Python tuple flowing through the judgment path. -/
inductive PyData where
  | score (x : Int)
  | qaPairs (ps : List (String × Int))
  | turnScores (ts : List Int)
  | rate (x : Int)
deriving DecidableEq

/-- The Python 4-tuple `(overall_score, qa_pairs, turn_scores, error_rate)`
that the judgment collaborator returns, as an ordered list of components. -/
def JudgmentResult.toPyTuple (r : JudgmentResult) : List PyData :=
  [PyData.score r.overall_score, PyData.qaPairs r.qa_pairs,
   PyData.turnScores r.turn_scores, PyData.rate r.error_rate]

/-- The exact parameter set a caller binds when invoking the judgment
collaborator: positional (model_name, judge_model_name, server_url) plus
the keyword arguments used in mt_bench.py (absent keywords are `none`). -/
structure JudgmentArgs where
  model_name : String
  judge_model_name : String
  server_url : String
  branch : Option String
  max_workers : PyVal
  output_dir : String
  data_dir : Option String
  bench_name : Option String
  merge_system_user_message : Bool
deriving DecidableEq

/-- Modelled from the spec: `mt_bench_judgment.generate_judgment` is not
under src.  Its scoring behaviour is abstract (the parameter `gj`, playing
the mock collaborator); its return shape is fixed by the spec's interface
table: the 4-tuple (overall_score, qa_pairs, turn_scores, error_rate). -/
def generate_judgment (gj : JudgmentArgs → JudgmentResult)
    (args : JudgmentArgs) : List PyData :=
  (gj args).toPyTuple

/-- A call into one of the two side-effecting collaborators, with the exact
arguments bound at the call site.  `branchGenerate` is
`mt_bench_branch_generator.generate`; `generateAnswers` is
`mt_bench_answers.generate_answers` (absent keyword arguments are `none`). -/
inductive CallEvent where
  | branchGenerate (judge_model_name branch taxonomy_git_repo_path output_dir : String)
  | generateAnswers (model_name server_url : String) (branch : Option String)
      (output_dir : String) (data_dir : Option String) (max_workers : PyVal)
      (bench_name : Option String)
deriving DecidableEq

/-- Method `MTBenchEvaluator.gen_answers` (mt_bench.py lines 97-110): one call to
the answer-generation collaborator.  Returns the evaluator post-state
(the method assigns no attribute) and the ordered call trace. -/
def MTBenchEvaluator.gen_answers (e : MTBenchEvaluator) (server_url : String) :
    MTBenchEvaluator × List CallEvent :=
  (e, [CallEvent.generateAnswers e.model_name server_url Option.none
        e.output_dir Option.none e.max_workers Option.none])

/-- Method `MTBenchEvaluator.judge_answers` (mt_bench.py lines 112-132): returns
the judgment collaborator's result unmodified, binding
(model_name, judge_model_name, server_url, max_workers, output_dir,
merge_system_user_message) and no branch-scoped keywords. -/
def MTBenchEvaluator.judge_answers (gj : JudgmentArgs → JudgmentResult)
    (e : MTBenchEvaluator) (server_url : String) :
    MTBenchEvaluator × List PyData :=
  (e, generate_judgment gj
    ⟨e.model_name, e.judge_model_name, server_url, Option.none,
     e.max_workers, e.output_dir, Option.none, Option.none,
     e.merge_system_user_message⟩)

/-- Method `MTBenchBranchEvaluator.gen_answers` (mt_bench.py lines 174-196):
first the branch-materialization call, then the answer-generation call with
branch, data_dir=output_dir and bench_name="mt_bench_branch" bound. -/
def MTBenchBranchEvaluator.gen_answers (e : MTBenchBranchEvaluator)
    (server_url : String) : MTBenchBranchEvaluator × List CallEvent :=
  (e, [CallEvent.branchGenerate e.judge_model_name e.branch
        e.taxonomy_git_repo_path e.output_dir,
       CallEvent.generateAnswers e.model_name server_url (Option.some e.branch)
        e.output_dir (Option.some e.output_dir) e.max_workers
        (Option.some "mt_bench_branch")])

/-- Method `MTBenchBranchEvaluator.judge_answers` (mt_bench.py lines 198-220):
destructures the collaborator's 4-tuple
`_, qa_pairs, _, error_rate = generate_judgment(...)` and returns the
2-tuple `(qa_pairs, error_rate)`. -/
def MTBenchBranchEvaluator.judge_answers (gj : JudgmentArgs → JudgmentResult)
    (e : MTBenchBranchEvaluator) (server_url : String) :
    MTBenchBranchEvaluator × List PyData :=
  let r := gj ⟨e.model_name, e.judge_model_name, server_url,
    Option.some e.branch, e.max_workers, e.output_dir,
    Option.some e.output_dir, Option.some "mt_bench_branch",
    e.merge_system_user_message⟩
  (e, [PyData.qaPairs r.qa_pairs, PyData.rate r.error_rate])

/-- The branch-scoped argument set bound by `MTBenchBranchEvaluator.judge_answers`. -/
def branchJudgmentArgs (e : MTBenchBranchEvaluator) (server_url : String) :
    JudgmentArgs :=
  ⟨e.model_name, e.judge_model_name, server_url, Option.some e.branch,
   e.max_workers, e.output_dir, Option.some e.output_dir,
   Option.some "mt_bench_branch", e.merge_system_user_message⟩

/-- A sample branch evaluator used to instantiate universally quantified
statements at a concrete input. -/
def sampleBranchEvaluator : MTBenchBranchEvaluator :=
  ⟨⟨"granite", "judge", "out", Option.none, false, PyVal.int 2⟩, "taxonomy", "main"⟩

/-- Helper: the base constructor threads `computeMaxWorkers` through, storing
the other five parameters verbatim. -/
theorem abstractInit_eq_map (mn jn od : String) (v : PyVal) (sg : Option Int)
    (ms : Bool) (c : Nat) :
    AbstractMTBenchEvaluator.init mn jn od v sg ms c =
      (computeMaxWorkers v sg c).map
        (fun w => ⟨mn, jn, od, sg, ms, w⟩) := by
  unfold AbstractMTBenchEvaluator.init
  cases computeMaxWorkers v sg c <;> rfl

/-- Helper: every successfully derived worker budget is an integer-typed
Python value, non-negative, and not the sentinel string. -/
theorem computeMaxWorkers_ok_props (v : PyVal) (sg : Option Int) (c : Nat)
    (w : PyVal) (h : computeMaxWorkers v sg c = Except.ok w) :
    pyIsInstanceInt w = true ∧ 0 ≤ pyToInt w ∧ w ≠ PyVal.str "auto" := by
  unfold computeMaxWorkers at h
  by_cases hv : v = PyVal.str "auto"
  · rw [if_pos hv] at h
    cases sg with
    | none =>
        simp only [Except.ok.injEq] at h
        subst h
        refine ⟨rfl, ?_, by simp⟩
        simp only [pyToInt]
        exact Int.ediv_nonneg (Int.ofNat_nonneg c) (by decide)
    | some g =>
        simp only [Except.ok.injEq] at h
        subst h
        refine ⟨rfl, ?_, by simp⟩
        simp only [pyToInt]
        refine le_min ?_ (Int.ofNat_nonneg c)
        have h1 : (1 : Int) ≤ max g 1 := le_max_right g 1
        nlinarith
  · rw [if_neg hv] at h
    by_cases hval : isValidExplicitMaxWorkers v = true
    · rw [if_pos hval] at h
      simp only [Except.ok.injEq] at h
      subst h
      unfold isValidExplicitMaxWorkers at hval
      simp only [Bool.and_eq_true, decide_eq_true_eq] at hval
      refine ⟨hval.1, le_of_lt hval.2, ?_⟩
      intro hw
      rw [hw] at hval
      exact absurd hval.1 (by simp [pyIsInstanceInt])
    · rw [if_neg hval] at h
      exact absurd h (by simp)

/-- C3: for construction with max_workers = "auto" and usable CPU count c,
the derived budget is min(max(g, 1) * 10, c) when serving_gpus = g is
provided (so g = 0 gives min(10, c)), and c / 2 (integer division) when
serving_gpus is absent. -/
theorem c3_auto_budget_formula (mn jn od : String) (ms : Bool) (c : Nat) :
    (∀ g : Int,
      AbstractMTBenchEvaluator.init mn jn od (PyVal.str "auto")
          (Option.some g) ms c =
        Except.ok ⟨mn, jn, od, Option.some g, ms,
          PyVal.int (min (max g 1 * 10) (c : Int))⟩) ∧
    AbstractMTBenchEvaluator.init mn jn od (PyVal.str "auto")
        Option.none ms c =
      Except.ok ⟨mn, jn, od, Option.none, ms,
        PyVal.int ((c : Int) / 2)⟩ := by
  exact ⟨fun g => rfl, rfl⟩

/-- C4: for construction with an explicit positive integer max_workers n,
the stored budget is exactly n, for every serving_gpus and every usable CPU
count. -/
theorem c4_explicit_budget (mn jn od : String) (sg : Option Int) (ms : Bool)
    (c : Nat) (n : Int) (h : 0 < n) :
    AbstractMTBenchEvaluator.init mn jn od (PyVal.int n) sg ms c =
      Except.ok ⟨mn, jn, od, sg, ms, PyVal.int n⟩ := by
  rw [abstractInit_eq_map]
  unfold computeMaxWorkers isValidExplicitMaxWorkers
  simp [pyIsInstanceInt, pyToInt, h, Except.map]

/-- Witness for C4 at n = 3, serving_gpus = 2, cpu count 16. -/
theorem c4_explicit_budget_witness :
    AbstractMTBenchEvaluator.init "granite" "judge" "out" (PyVal.int 3)
        (Option.some 2) false 16 =
      Except.ok ⟨"granite", "judge", "out", Option.some 2, false,
        PyVal.int 3⟩ :=
  c4_explicit_budget "granite" "judge" "out" (Option.some 2) false 16 3
    (by decide)

/-- C5: construction fails (with `InvalidMaxWorkersError`) exactly when
max_workers is neither the string "auto" nor a positive integer in the host
language's sense (integer-typed with value > 0; Python booleans are
integer-typed), and the raised error carries exactly the rejected value. -/
theorem c5_invalid_rejected (mn jn od : String) (sg : Option Int) (ms : Bool)
    (c : Nat) (v : PyVal) :
    ((∃ w, AbstractMTBenchEvaluator.init mn jn od v sg ms c =
        Except.error w) ↔
      v ≠ PyVal.str "auto" ∧ ¬(pyIsInstanceInt v = true ∧ 0 < pyToInt v)) ∧
    ∀ w, AbstractMTBenchEvaluator.init mn jn od v sg ms c = Except.error w →
      w = v := by
  rw [abstractInit_eq_map]
  unfold computeMaxWorkers isValidExplicitMaxWorkers
  by_cases hv : v = PyVal.str "auto"
  · subst hv
    cases sg <;> simp [Except.map]
  · by_cases hval : pyIsInstanceInt v = true ∧ 0 < pyToInt v
    · simp [hv, hval.1, hval.2, Except.map]
    · have hb : (pyIsInstanceInt v && decide (0 < pyToInt v)) = false := by
        rcases Decidable.not_and_iff_or_not.mp hval with h1 | h1
        · simp [Bool.and_eq_false_iff, h1]
        · simp [Bool.and_eq_false_iff, h1]
      simp [hv, hb, hval, Except.map]

/-- Witness for C5 at the rejected input max_workers = 0. -/
theorem c5_invalid_rejected_witness :
    (∃ w, AbstractMTBenchEvaluator.init "granite" "judge" "out" (PyVal.int 0)
        Option.none false 8 = Except.error w) ∧
    PyVal.int 0 = PyVal.int 0 :=
  ⟨(c5_invalid_rejected "granite" "judge" "out" Option.none false 8
      (PyVal.int 0)).1.mpr ⟨by decide, by decide⟩,
   (c5_invalid_rejected "granite" "judge" "out" Option.none false 8
      (PyVal.int 0)).2 (PyVal.int 0) rfl⟩

/-- C8: construction with max_workers = "auto" and serving_gpus unset never
fails, for every usable CPU count including 0 and 1. -/
theorem c8_auto_never_raises (mn jn od : String) (ms : Bool) (c : Nat) :
    ∃ e, AbstractMTBenchEvaluator.init mn jn od (PyVal.str "auto")
        Option.none ms c = Except.ok e :=
  ⟨⟨mn, jn, od, Option.none, ms, PyVal.int ((c : Int) / 2)⟩, rfl⟩

/-- C10: construction with the boolean True as max_workers succeeds and
stores True itself (numerically 1): the validity check
`isinstance(max_workers, int) and max_workers > 0` accepts it because
Python booleans are integer-typed. -/
theorem c10_bool_true_accepted (mn jn od : String) (sg : Option Int)
    (ms : Bool) (c : Nat) :
    AbstractMTBenchEvaluator.init mn jn od (PyVal.bool true) sg ms c =
      Except.ok ⟨mn, jn, od, sg, ms, PyVal.bool true⟩ ∧
    pyIsInstanceInt (PyVal.bool true) = true ∧
    pyToInt (PyVal.bool true) = 1 :=
  ⟨rfl, rfl, rfl⟩

/-- Counterexample to C1 as stated: construction with max_workers = "auto",
serving_gpus unset and usable CPU count 1 completes without raising, yet
the stored max_workers is 0 — not a positive integer. -/
theorem c1_stored_budget_counterexample :
    MTBenchEvaluator.init "granite" "judge" "out" (PyVal.str "auto")
        Option.none false 1 =
      Except.ok ⟨⟨"granite", "judge", "out", Option.none, false,
        PyVal.int 0⟩⟩ ∧
    ¬ 0 < pyToInt (PyVal.int 0) :=
  ⟨rfl, by decide⟩

/-- C1 amended: for every construction of either evaluator variant that
completes without raising, the stored max_workers is an integer-typed value
(never the string sentinel "auto") and is non-negative; it can be zero on
the auto path when the derived budget is zero (e.g. CPU count 1 without
serving_gpus, or CPU count 0 with serving_gpus). -/
theorem c1_stored_budget (mn jn od tax br : String) (v : PyVal)
    (sg : Option Int) (ms : Bool) (c : Nat) :
    (∀ e, MTBenchEvaluator.init mn jn od v sg ms c = Except.ok e →
      pyIsInstanceInt e.max_workers = true ∧ 0 ≤ pyToInt e.max_workers ∧
      e.max_workers ≠ PyVal.str "auto") ∧
    (∀ e, MTBenchBranchEvaluator.init mn jn tax br od v sg ms c =
        Except.ok e →
      pyIsInstanceInt e.max_workers = true ∧ 0 ≤ pyToInt e.max_workers ∧
      e.max_workers ≠ PyVal.str "auto") := by
  constructor
  · intro e he
    unfold MTBenchEvaluator.init at he
    rw [abstractInit_eq_map] at he
    rcases hc : computeMaxWorkers v sg c with w | w
    · rw [hc] at he
      simp [Except.map] at he
    · rw [hc] at he
      simp only [Except.map, Except.ok.injEq] at he
      have := computeMaxWorkers_ok_props v sg c w hc
      subst he
      exact this
  · intro e he
    unfold MTBenchBranchEvaluator.init at he
    rw [abstractInit_eq_map] at he
    rcases hc : computeMaxWorkers v sg c with w | w
    · rw [hc] at he
      simp [Except.map] at he
    · rw [hc] at he
      simp only [Except.map, Except.ok.injEq] at he
      have := computeMaxWorkers_ok_props v sg c w hc
      subst he
      exact this

/-- Witness for C1 amended, at the auto path with CPU count 1 (stored
budget 0) for both variants. -/
theorem c1_stored_budget_witness :
    (pyIsInstanceInt (PyVal.int 0) = true ∧ 0 ≤ pyToInt (PyVal.int 0) ∧
      PyVal.int 0 ≠ PyVal.str "auto") ∧
    (pyIsInstanceInt (PyVal.int 0) = true ∧ 0 ≤ pyToInt (PyVal.int 0) ∧
      PyVal.int 0 ≠ PyVal.str "auto") :=
  ⟨(c1_stored_budget "granite" "judge" "out" "taxonomy" "main"
      (PyVal.str "auto") Option.none false 1).1
    ⟨⟨"granite", "judge", "out", Option.none, false, PyVal.int 0⟩⟩ rfl,
   (c1_stored_budget "granite" "judge" "out" "taxonomy" "main"
      (PyVal.str "auto") Option.none false 1).2
    ⟨⟨"granite", "judge", "out", Option.none, false, PyVal.int 0⟩,
      "taxonomy", "main"⟩ rfl⟩

/-- A sample standard evaluator used to instantiate universally quantified
statements at a concrete input. -/
def sampleEvaluator : MTBenchEvaluator :=
  ⟨⟨"granite", "judge", "out", Option.none, false, PyVal.int 2⟩⟩

/-- A sample judgment collaborator returning a fixed 4-tuple. -/
def sampleJudge : JudgmentArgs → JudgmentResult :=
  fun _ => ⟨7, [("q1", 5)], [6, 8], 1⟩

/-- Counterexample to C2 as stated: at a concrete collaborator,
`MTBenchEvaluator.judge_answers` returns the collaborator's value
unmodified — which is a 4-tuple (the fourth component, error_rate,
included), not a 3-tuple. -/
theorem c2_judge_passthrough_counterexample :
    (MTBenchEvaluator.judge_answers sampleJudge sampleEvaluator
        "srv").snd.length = 4 ∧
    ¬ (MTBenchEvaluator.judge_answers sampleJudge sampleEvaluator
        "srv").snd.length = 3 ∧
    (MTBenchEvaluator.judge_answers sampleJudge sampleEvaluator
        "srv").snd.getLast? = Option.some (PyData.rate 1) :=
  ⟨rfl, by decide, rfl⟩

/-- C2 amended: `MTBenchEvaluator.judge_answers` returns exactly what the
judgment collaborator returns, unmodified, binding (model_name,
judge_model_name, server_url, max_workers, output_dir,
merge_system_user_message) and no branch-scoped keywords; per the
collaborator's interface that value is the 4-tuple
(overall_score, qa_pairs, turn_scores, error_rate). -/
theorem c2_judge_passthrough (gj : JudgmentArgs → JudgmentResult)
    (e : MTBenchEvaluator) (url : String) :
    (MTBenchEvaluator.judge_answers gj e url).snd =
      generate_judgment gj
        ⟨e.model_name, e.judge_model_name, url, Option.none, e.max_workers,
         e.output_dir, Option.none, Option.none,
         e.merge_system_user_message⟩ ∧
    (MTBenchEvaluator.judge_answers gj e url).snd.length = 4 :=
  ⟨rfl, rfl⟩

/-- C6: `MTBenchBranchEvaluator.judge_answers` returns exactly the 2-tuple
(qa_pairs, error_rate): whenever the judgment collaborator's 4-tuple is
(s, q, t, r), the method returns [q, r], discarding the overall score and
the turn scores. -/
theorem c6_branch_judge_discards (gj : JudgmentArgs → JudgmentResult)
    (e : MTBenchBranchEvaluator) (url : String) :
    (MTBenchBranchEvaluator.judge_answers gj e url).snd.length = 2 ∧
    ∀ s q t r, generate_judgment gj (branchJudgmentArgs e url) = [s, q, t, r] →
      (MTBenchBranchEvaluator.judge_answers gj e url).snd = [q, r] := by
  refine ⟨rfl, ?_⟩
  intro s q t r h
  unfold generate_judgment JudgmentResult.toPyTuple branchJudgmentArgs at h
  simp only [List.cons.injEq, and_true] at h
  obtain ⟨-, hq, -, hr, -⟩ := h
  subst hq
  rfl

/-- Witness for C6 at a concrete collaborator and evaluator. -/
theorem c6_branch_judge_discards_witness :
    (MTBenchBranchEvaluator.judge_answers sampleJudge sampleBranchEvaluator
        "srv").snd = [PyData.qaPairs [("q1", 5)], PyData.rate 1] :=
  (c6_branch_judge_discards sampleJudge sampleBranchEvaluator "srv").2
    (PyData.score 7) (PyData.qaPairs [("q1", 5)]) (PyData.turnScores [6, 8])
    (PyData.rate 1) rfl

/-- C7: `MTBenchBranchEvaluator.gen_answers` makes exactly two collaborator
calls in order: first branch materialization with (judge_model_name,
branch, taxonomy_git_repo_path, output_dir), then answer generation with
branch, data_dir = output_dir and bench_name = "mt_bench_branch" bound;
any occurrence of the materialization call in the trace strictly precedes
any occurrence of the generation call. -/
theorem c7_gen_order (e : MTBenchBranchEvaluator) (url : String) :
    (MTBenchBranchEvaluator.gen_answers e url).snd =
      [CallEvent.branchGenerate e.judge_model_name e.branch
        e.taxonomy_git_repo_path e.output_dir,
       CallEvent.generateAnswers e.model_name url (Option.some e.branch)
        e.output_dir (Option.some e.output_dir) e.max_workers
        (Option.some "mt_bench_branch")] ∧
    ∀ i j : Nat,
      (MTBenchBranchEvaluator.gen_answers e url).snd.get? i =
        Option.some (CallEvent.branchGenerate e.judge_model_name e.branch
          e.taxonomy_git_repo_path e.output_dir) →
      (MTBenchBranchEvaluator.gen_answers e url).snd.get? j =
        Option.some (CallEvent.generateAnswers e.model_name url
          (Option.some e.branch) e.output_dir (Option.some e.output_dir)
          e.max_workers (Option.some "mt_bench_branch")) →
      i < j := by
  refine ⟨rfl, ?_⟩
  intro i j hi hj
  match i, j with
  | 0, 0 => exact absurd hj (by simp [MTBenchBranchEvaluator.gen_answers])
  | 0, 1 => exact Nat.zero_lt_one
  | 0, j + 2 => exact absurd hj (by simp [MTBenchBranchEvaluator.gen_answers])
  | 1, j => exact absurd hi (by simp [MTBenchBranchEvaluator.gen_answers])
  | i + 2, j => exact absurd hi (by simp [MTBenchBranchEvaluator.gen_answers])

/-- Witness for C7 at a concrete evaluator: the trace and the ordering of
its two entries. -/
theorem c7_gen_order_witness :
    (MTBenchBranchEvaluator.gen_answers sampleBranchEvaluator "srv").snd =
      [CallEvent.branchGenerate "judge" "main" "taxonomy" "out",
       CallEvent.generateAnswers "granite" "srv" (Option.some "main") "out"
        (Option.some "out") (PyVal.int 2) (Option.some "mt_bench_branch")] ∧
    (0 : Nat) < 1 :=
  ⟨(c7_gen_order sampleBranchEvaluator "srv").1,
   (c7_gen_order sampleBranchEvaluator "srv").2 0 1 rfl rfl⟩

/-- C9: neither `gen_answers` nor `judge_answers`, on either evaluator
variant, changes the evaluator's state: the post-state equals the
pre-state, so every config field set at construction is unchanged. -/
theorem c9_methods_frame (gj : JudgmentArgs → JudgmentResult)
    (e : MTBenchEvaluator) (eb : MTBenchBranchEvaluator) (url : String) :
    (MTBenchEvaluator.gen_answers e url).fst = e ∧
    (MTBenchEvaluator.judge_answers gj e url).fst = e ∧
    (MTBenchBranchEvaluator.gen_answers eb url).fst = eb ∧
    (MTBenchBranchEvaluator.judge_answers gj eb url).fst = eb :=
  ⟨rfl, rfl, rfl, rfl⟩
